import Mathlib

/-!
Shallow embedding of the Llama-Index evaluation scripts.

Scores are modelled as rationals (`ℚ`): the scripts perform no floating-point
arithmetic on scores other than comparisons with literals and one division by 4
(exact in binary floating point), so `ℚ` is a faithful model.  Optional Python
values (`None`) are modelled with `Option`, and Python string truthiness
(`if feedback:`) is made explicit.
-/

/-- Python truthiness of an optional string: `None` and `""` are falsy,
every other string is truthy. -/
def pyTruthy : Option String → Bool
  | none => false
  | some s => !(s == "")

/-- `isPrefixL p l` holds when the character list `p` is a prefix of `l`. -/
def isPrefixL : List Char → List Char → Bool
  | [], _ => true
  | _ :: _, [] => false
  | a :: p, b :: l => a == b && isPrefixL p l

/-- `occursIn sub l` holds when `sub` occurs as a contiguous sublist of `l`
(the semantics of the Python substring test `sub in s`). -/
def occursIn (sub : List Char) : List Char → Bool
  | [] => isPrefixL sub []
  | c :: l => isPrefixL sub (c :: l) || occursIn sub l

/-- Python substring containment: `strContains s sub` models `sub in s`. -/
def strContains (s sub : String) : Bool :=
  occursIn sub.data s.data

/-- Lines 15-22 of `Interface.py`: the feedback-text fallback of `safe_score`.
`if feedback:` guards the substring checks, the chain checks "2/2", "1/2",
"0/2" in order, and `return 0.0` is the default. -/
def feedback_fallback (feedback : Option String) : ℚ :=
  if pyTruthy feedback then
    let f := feedback.getD ""
    if strContains f "2/2" then 1
    else if strContains f "1/2" then 1/2
    else if strContains f "0/2" then 0
    else 0
  else 0

/-- `safe_score` from `Interface.py` lines 12-22: a present, strictly positive
score is returned unchanged (`if score is not None and score > 0`); every
other score (absent, zero, or negative) falls through to the feedback text. -/
def safe_score (score : Option ℚ) (feedback : Option String) : ℚ :=
  match score with
  | some s => if 0 < s then s else feedback_fallback feedback
  | none => feedback_fallback feedback

/-- Whether an optional feedback string contains a substring; absent feedback
contains nothing.  Used only to phrase the behaviour the spec prescribes. -/
def fbContains (feedback : Option String) (sub : String) : Bool :=
  match feedback with
  | some f => strContains f sub
  | none => false

/-- Modelled from the spec, section 4.1: the five ordered cases of the
`normalize` contract, first match winning.  Written from the spec wording, to
be compared with `safe_score`, which is written from the source. -/
def spec_normalize (score : Option ℚ) (feedback : Option String) : ℚ :=
  if (match score with | some s => decide (0 < s) | none => false) then
    score.getD 0
  else if fbContains feedback "2/2" then 1
  else if fbContains feedback "1/2" then 1/2
  else if fbContains feedback "0/2" then 0
  else 0

/-- `Interface.py` lines 68-69: `raw = correctness_result.score or 0` followed
by `raw / 4 if raw > 1 else raw`.  Python `or` replaces a falsy score
(`None` or `0.0`) by `0`. -/
def correctness_score (score : Option ℚ) : ℚ :=
  let raw : ℚ :=
    match score with
    | none => 0
    | some s => if s == 0 then 0 else s
  if 1 < raw then raw / 4 else raw

/-- The result object returned by an LLM-based evaluator: a boolean passing
flag, a numeric score (possibly absent), and optional feedback text. -/
structure EvaluationResult where
  score : Option ℚ
  feedback : Option String
  passing : Option Bool
deriving DecidableEq

/-- One line of the evaluation report a script emits. -/
inductive EvalReport where
  | faithResult (passing : Option Bool) (feedback : Option String)
  | faithFailed
  | relResult (passing : Option Bool) (score : Option ℚ) (feedback : Option String)
  | relFailed
deriving DecidableEq

/-- `OpenAI-Eval.py` sections 6-7 (lines 113-165), with a valid response and
initialized evaluators: each evaluator call is wrapped in its own
`try/except` that sets the result to `None` on error, and section 7 reports
each result, printing a failure line when a result is `None`. -/
def openAIEvalSection (faithCall relCall : Except String EvaluationResult) :
    List EvalReport :=
  let faithfulness_result : Option EvaluationResult :=
    match faithCall with
    | .ok r => some r
    | .error _ => none
  let answer_relevancy_result : Option EvaluationResult :=
    match relCall with
    | .ok r => some r
    | .error _ => none
  [match faithfulness_result with
   | some r => .faithResult r.passing r.feedback
   | none => .faithFailed,
   match answer_relevancy_result with
   | some r => .relResult r.passing r.score r.feedback
   | none => .relFailed]

/-- `localLlm-eval.py` lines 154-170: the faithfulness call is made and its
result printed, then the relevancy call is made and printed; neither call is
guarded by `try/except`, so an exception propagates and terminates the
script.  The result is the reports printed before termination, paired with
the uncaught exception, if any. -/
def localLlmEvalSection (faithCall relCall : Except String EvaluationResult) :
    List EvalReport × Option String :=
  match faithCall with
  | .error e => ([], some e)
  | .ok f =>
    match relCall with
    | .error e => ([EvalReport.faithResult f.passing f.feedback], some e)
    | .ok r =>
        ([EvalReport.faithResult f.passing f.feedback,
          EvalReport.relResult r.passing r.score r.feedback], none)

/-- What the Streamlit interface displays for the evaluation block. -/
inductive InterfaceDisplay where
  | metrics (faithScore relScore corrScore : ℚ)
  | evalError (msg : String)
deriving DecidableEq

/-- `Interface.py` lines 47-88: the three evaluator calls and all metric
displays live inside one `try` block; an exception from any call reaches the
single `except` handler, which shows an error banner and displays no
metrics. -/
def interfaceEvalSection (faithCall relCall corrCall : Except String EvaluationResult) :
    InterfaceDisplay :=
  match faithCall with
  | .error e => .evalError e
  | .ok f =>
    match relCall with
    | .error e => .evalError e
    | .ok r =>
      match corrCall with
      | .error e => .evalError e
      | .ok c =>
          .metrics (safe_score f.score f.feedback) (safe_score r.score r.feedback)
            (correctness_score c.score)

/-- Outcome of the startup section of `OpenAI-Eval.py`. -/
inductive StartupOutcome where
  | exitWithError (code : Nat) (msg : String)
  | proceed (apiKey : String)
deriving DecidableEq

/-- The first error line printed for a missing API key. -/
def apiKeyErrorMsg : String := "Error: OPENAI_API_KEY environment variable not set."

/-- `OpenAI-Eval.py` lines 19-25: `api_key = os.getenv("OPENAI_API_KEY")`,
then `if not api_key:` prints the error and calls `sys.exit(1)`; otherwise
the script proceeds with the key. -/
def openAIStartup (apiKey : Option String) : StartupOutcome :=
  if pyTruthy apiKey then .proceed (apiKey.getD "")
  else .exitWithError 1 apiKeyErrorMsg

/-- The whole `OpenAI-Eval.py` control flow around startup: the rest of the
script (loading, indexing, querying, evaluation — sections 2 onward) is an
arbitrary continuation on the key, which runs only when startup proceeds. -/
def openAIScript (apiKey : Option String)
    (pipeline : String → Except (Nat × String) (List String)) :
    Except (Nat × String) (List String) :=
  match openAIStartup apiKey with
  | .exitWithError c m => .error (c, m)
  | .proceed k => pipeline k

/-- Every value of the feedback fallback is one of the three literals. -/
lemma feedback_fallback_cases (feedback : Option String) :
    feedback_fallback feedback = 0 ∨ feedback_fallback feedback = 1/2 ∨
      feedback_fallback feedback = 1 := by
  unfold feedback_fallback
  by_cases ht : pyTruthy feedback = true <;>
  by_cases h2 : strContains (feedback.getD "") "2/2" = true <;>
  by_cases h1 : strContains (feedback.getD "") "1/2" = true <;>
  by_cases h0 : strContains (feedback.getD "") "0/2" = true <;>
    simp [ht, h2, h1, h0]

/-- The feedback fallback of the source agrees with the ordered substring
chain phrased over `fbContains` (absent feedback contains nothing). -/
lemma feedback_fallback_eq_chain (feedback : Option String) :
    feedback_fallback feedback =
      if fbContains feedback "2/2" then 1
      else if fbContains feedback "1/2" then 1/2
      else if fbContains feedback "0/2" then 0
      else 0 := by
  rcases feedback with _ | f
  · simp [feedback_fallback, pyTruthy, fbContains]
  · by_cases hf : f = ""
    · subst hf; decide
    · simp [feedback_fallback, pyTruthy, fbContains, hf]

/-- Claim C1: `safe_score` realises exactly the five ordered cases of the
spec contract (first match wins); in particular, feedback containing both
"2/2" and "1/2" yields 1 whenever the positive-score case does not apply,
and a positive score takes precedence over any feedback content. -/
theorem safe_score_matches_spec :
    (∀ (score : Option ℚ) (feedback : Option String),
        safe_score score feedback = spec_normalize score feedback) ∧
    (∀ f : String, strContains f "2/2" = true → strContains f "1/2" = true →
        safe_score none (some f) = 1 ∧
        ∀ s : ℚ, s ≤ 0 → safe_score (some s) (some f) = 1) ∧
    (∀ (s : ℚ) (feedback : Option String), 0 < s → safe_score (some s) feedback = s) := by
  refine ⟨?_, ?_, ?_⟩
  · intro score feedback
    rcases score with _ | s
    · simp [safe_score, spec_normalize, feedback_fallback_eq_chain]
    · by_cases hs : 0 < s <;>
        simp [safe_score, spec_normalize, hs, feedback_fallback_eq_chain]
  · intro f h2 h1
    refine ⟨?_, ?_⟩
    · simp [safe_score, feedback_fallback_eq_chain, fbContains, h2]
    · intro s hs
      simp [safe_score, not_lt.2 hs, feedback_fallback_eq_chain, fbContains, h2]
  · intro s feedback hs
    simp [safe_score, hs]

/-- Witness for C1 at concrete inputs: feedback holding both ratios gives 1
for an absent and for a non-positive score. -/
theorem safe_score_matches_spec_witness :
    safe_score none (some "Score: 2/2 and 1/2") = 1 ∧
    safe_score (some (-1)) (some "Score: 2/2 and 1/2") = 1 :=
  ⟨(safe_score_matches_spec.2.1 "Score: 2/2 and 1/2" (by decide) (by decide)).1,
   (safe_score_matches_spec.2.1 "Score: 2/2 and 1/2" (by decide) (by decide)).2
      (-1) (by norm_num)⟩

/-- Claim C2: a present score of exactly 0 is not returned directly; the
result coincides with the absent-score case and the feedback decides, so a
feedback containing "2/2" yields 1 even though 0 was supplied. -/
theorem safe_score_zero_is_absent :
    (∀ feedback : Option String, safe_score (some 0) feedback = safe_score none feedback) ∧
    (∀ f : String, strContains f "2/2" = true → safe_score (some 0) (some f) = 1) ∧
    safe_score (some 0) (some "Result: 2/2") = 1 := by
  refine ⟨?_, ?_, by decide⟩
  · intro feedback
    simp [safe_score]
  · intro f h2
    simp [safe_score, feedback_fallback_eq_chain, fbContains, h2]

/-- Witness for C2 at the concrete feedback "passing: 2/2". -/
theorem safe_score_zero_is_absent_witness :
    safe_score (some 0) (some "passing: 2/2") = 1 :=
  safe_score_zero_is_absent.2.1 "passing: 2/2" (by decide)

/-- Claim C4: on well-formed input (score absent or in the unit interval,
any feedback) the result lies in the unit interval. -/
theorem safe_score_wellformed_range :
    ∀ (score : Option ℚ) (feedback : Option String),
      (score = none ∨ ∃ s : ℚ, score = some s ∧ 0 ≤ s ∧ s ≤ 1) →
      0 ≤ safe_score score feedback ∧ safe_score score feedback ≤ 1 := by
  intro score feedback h
  rcases h with h | ⟨s, rfl, h0, h1⟩
  · subst h
    rcases feedback_fallback_cases feedback with hf | hf | hf <;>
      rw [show safe_score none feedback = feedback_fallback feedback from rfl, hf] <;>
      norm_num
  · by_cases hs : 0 < s
    · simpa [safe_score, hs] using ⟨h0, h1⟩
    · rcases feedback_fallback_cases feedback with hf | hf | hf <;>
        rw [show safe_score (some s) feedback =
              if 0 < s then s else feedback_fallback feedback from rfl, if_neg hs, hf] <;>
        norm_num

/-- Witness for C4 at score 1/2 with feedback "0/2". -/
theorem safe_score_wellformed_range_witness :
    0 ≤ safe_score (some (1/2)) (some "0/2") ∧ safe_score (some (1/2)) (some "0/2") ≤ 1 :=
  safe_score_wellformed_range (some (1/2)) (some "0/2")
    (Or.inr ⟨1/2, rfl, by norm_num, by norm_num⟩)

/-- Claim C5: `safe_score` is total: every input yields a value (a positive
pass-through or one of the literals 0, 1/2, 1); unrecognised feedback falls
through to the default 0, e.g. on absent inputs and on "no ratio present". -/
theorem safe_score_never_fails :
    (∀ (score : Option ℚ) (feedback : Option String),
        (∃ s : ℚ, score = some s ∧ 0 < s ∧ safe_score score feedback = s) ∨
        safe_score score feedback = 0 ∨ safe_score score feedback = 1/2 ∨
        safe_score score feedback = 1) ∧
    safe_score none none = 0 ∧
    safe_score (some 0) (some "no ratio present") = 0 := by
  refine ⟨?_, by decide, by decide⟩
  intro score feedback
  rcases score with _ | s
  · right
    simpa [safe_score] using feedback_fallback_cases feedback
  · by_cases hs : 0 < s
    · exact Or.inl ⟨s, rfl, hs, by simp [safe_score, hs]⟩
    · right
      simpa [safe_score, hs] using feedback_fallback_cases feedback

/-- Claim C6: normalization is idempotent whenever the first result is
positive, since the positive-score case short-circuits. -/
theorem safe_score_idempotent_on_positive :
    ∀ (score : Option ℚ) (feedback : Option String),
      0 < safe_score score feedback →
      safe_score (some (safe_score score feedback)) none = safe_score score feedback := by
  intro score feedback h
  rw [show safe_score (some (safe_score score feedback)) none =
      if 0 < safe_score score feedback then safe_score score feedback
      else feedback_fallback none from rfl, if_pos h]

/-- Witness for C6 at score 1 with no feedback. -/
theorem safe_score_idempotent_on_positive_witness :
    safe_score (some (safe_score (some 1) none)) none = safe_score (some 1) none :=
  safe_score_idempotent_on_positive (some 1) none (by decide)

/-- Claim C10: a non-positive score is never passed through: the result is
one of 0, 1/2, 1; and the result is never negative for any input at all. -/
theorem safe_score_never_negative :
    (∀ (s : ℚ) (feedback : Option String), s ≤ 0 →
        safe_score (some s) feedback = 0 ∨ safe_score (some s) feedback = 1/2 ∨
        safe_score (some s) feedback = 1) ∧
    (∀ (score : Option ℚ) (feedback : Option String), 0 ≤ safe_score score feedback) := by
  constructor
  · intro s feedback hs
    simpa [safe_score, not_lt.2 hs] using feedback_fallback_cases feedback
  · intro score feedback
    rcases score with _ | s
    · rcases feedback_fallback_cases feedback with hf | hf | hf <;>
        rw [show safe_score none feedback = feedback_fallback feedback from rfl, hf] <;>
        norm_num
    · by_cases hs : 0 < s
      · simpa [safe_score, hs] using le_of_lt hs
      · rcases feedback_fallback_cases feedback with hf | hf | hf <;>
          rw [show safe_score (some s) feedback =
                if 0 < s then s else feedback_fallback feedback from rfl, if_neg hs, hf] <;>
          norm_num

/-- Witness for C10 at the concrete negative score -2 with feedback "1/2". -/
theorem safe_score_never_negative_witness :
    safe_score (some (-2)) (some "1/2") = 0 ∨
    safe_score (some (-2)) (some "1/2") = 1/2 ∨
    safe_score (some (-2)) (some "1/2") = 1 :=
  safe_score_never_negative.1 (-2) (some "1/2") (by norm_num)

/-- Claim C3: a strictly positive score is passed through unchanged, for any
feedback, even when it lies outside the range, e.g. a score of 5 is returned
as 5. -/
theorem safe_score_positive_passthrough :
    (∀ (s : ℚ) (feedback : Option String), 0 < s → safe_score (some s) feedback = s) ∧
    safe_score (some 5) (some "0/2") = 5 := by
  constructor
  · intro s feedback hs
    simp [safe_score, hs]
  · simp [safe_score, show (0:ℚ) < 5 by norm_num]

/-- Witness for C3 at the concrete input score 3, feedback "1/2". -/
theorem safe_score_positive_passthrough_witness :
    safe_score (some 3) (some "1/2") = 3 :=
  safe_score_positive_passthrough.1 3 (some "1/2") (by norm_num)

/-- Counterexample to claim C7: in `localLlm-eval.py` a failing faithfulness
call is not recovered: with a concrete failing faithfulness call and a
succeeding relevancy call, the script emits no report at all and terminates
with the uncaught exception, instead of reporting the relevancy result that
did succeed. -/
theorem evaluator_failure_aborts_local_script :
    localLlmEvalSection (Except.error "LLM timeout")
        (Except.ok { score := some 1, feedback := some "YES", passing := some true })
      = ([], some "LLM timeout") ∧
    interfaceEvalSection (Except.error "LLM timeout")
        (Except.ok { score := some 1, feedback := some "YES", passing := some true })
        (Except.ok { score := some 4, feedback := some "good", passing := some true })
      = InterfaceDisplay.evalError "LLM timeout" := by
  exact ⟨rfl, rfl⟩

/-- Claim C7 as amended: evaluator failure is recovered locally only in
`OpenAI-Eval.py`, where the failed result is set to unavailable and the
other result is still reported; in `localLlm-eval.py` the failure propagates,
terminating the script after only the reports already printed; in
`Interface.py` a failure in any evaluator aborts the whole block, so no
metrics are reported and an error banner is shown. -/
theorem evaluator_failure_handling_per_script :
    (∀ (e : String) (r : EvaluationResult),
        openAIEvalSection (Except.error e) (Except.ok r)
          = [EvalReport.faithFailed, EvalReport.relResult r.passing r.score r.feedback] ∧
        openAIEvalSection (Except.ok r) (Except.error e)
          = [EvalReport.faithResult r.passing r.feedback, EvalReport.relFailed]) ∧
    (∀ (e : String) (relCall : Except String EvaluationResult),
        localLlmEvalSection (Except.error e) relCall = ([], some e)) ∧
    (∀ (e : String) (f : EvaluationResult),
        localLlmEvalSection (Except.ok f) (Except.error e)
          = ([EvalReport.faithResult f.passing f.feedback], some e)) ∧
    (∀ (e : String) (relCall corrCall : Except String EvaluationResult),
        interfaceEvalSection (Except.error e) relCall corrCall
          = InterfaceDisplay.evalError e) ∧
    (∀ (e : String) (f : EvaluationResult) (corrCall : Except String EvaluationResult),
        interfaceEvalSection (Except.ok f) (Except.error e) corrCall
          = InterfaceDisplay.evalError e) ∧
    (∀ (e : String) (f r : EvaluationResult),
        interfaceEvalSection (Except.ok f) (Except.ok r) (Except.error e)
          = InterfaceDisplay.evalError e) := by
  exact ⟨fun e r => ⟨rfl, rfl⟩, fun e relCall => rfl, fun e f => rfl,
    fun e relCall corrCall => rfl, fun e f corrCall => rfl, fun e f r => rfl⟩

/-- Claim C8: with the API-key environment variable absent or empty, the
OpenAI evaluation script exits with status 1 and the error message, for every
possible continuation — so no loading, indexing, or querying is attempted. -/
theorem missing_api_key_exits_before_loading :
    ∀ (apiKey : Option String)
      (pipeline : String → Except (Nat × String) (List String)),
      apiKey = none ∨ apiKey = some "" →
      openAIScript apiKey pipeline = Except.error (1, apiKeyErrorMsg) := by
  intro apiKey pipeline h
  rcases h with h | h <;> subst h <;> rfl

/-- Witness for C8: an absent key exits with status 1 even when the pipeline
would have succeeded. -/
theorem missing_api_key_exits_before_loading_witness :
    openAIScript none (fun k => Except.ok [k]) = Except.error (1, apiKeyErrorMsg) :=
  missing_api_key_exits_before_loading none (fun k => Except.ok [k]) (Or.inl rfl)

/-- Claim C9: the displayed correctness score is the raw score divided by 4
when the raw score exceeds 1 and the raw score unchanged otherwise, with an
absent raw score treated as 0; a raw score in [0, 4] lands in [0, 1], and a
raw score of exactly 1 is not divided. -/
theorem correctness_score_normalization :
    (∀ r : ℚ, correctness_score (some r) = if 1 < r then r / 4 else r) ∧
    correctness_score none = 0 ∧
    (∀ r : ℚ, 0 ≤ r → r ≤ 4 →
        0 ≤ correctness_score (some r) ∧ correctness_score (some r) ≤ 1) ∧
    correctness_score (some 1) = 1 := by
  have hval : ∀ r : ℚ, correctness_score (some r) = if 1 < r then r / 4 else r := by
    intro r
    by_cases hr : r = 0
    · subst hr; decide
    · simp [correctness_score, hr]
  refine ⟨hval, by decide, ?_, by decide⟩
  intro r h0 h4
  rw [hval]
  by_cases hr : 1 < r
  · rw [if_pos hr]
    constructor <;> [positivity; linarith]
  · rw [if_neg hr]
    exact ⟨h0, le_of_not_lt hr⟩

/-- Witness for C9 at the concrete raw score 3: the displayed score 3/4 lies
in the unit interval. -/
theorem correctness_score_normalization_witness :
    0 ≤ correctness_score (some 3) ∧ correctness_score (some 3) ≤ 1 :=
  correctness_score_normalization.2.2.1 3 (by norm_num) (by norm_num)
